import Mathlib

/-!
Verification of the scroll-synced label animator.

The repository holds one canonical implementation (src/info.js) and several
variants (src/unnamed/part_000, part_002, part_003).  All numeric quantities
are embedded as exact rationals (ℚ): scroll positions, viewport heights and
section geometry are finite reals in the source, and every operation the
claims concern (affine maps, clamping, division with guarded denominators,
comparisons) is exact, so ℚ is a faithful carrier.  DOM reads are modelled as
explicit inputs; DOM writes as an explicit result value.
-/

namespace Info

/-- CONFIG constant from src/info.js line 10. -/
def HOLD_START : ℚ := 18/100

/-- CONFIG constant from src/info.js line 11. -/
def HOLD_END : ℚ := 82/100

/-- CONFIG constant from src/info.js line 12. -/
def START_OFFSET_VH : ℚ := 35

/-- CONFIG constant from src/info.js line 13. -/
def END_OFFSET_VH : ℚ := -45

/-- CONFIG constant from src/info.js line 14. -/
def PROGRESS_CLAMP_MIN : ℚ := -(25/100)

/-- CONFIG constant from src/info.js line 15. -/
def PROGRESS_CLAMP_MAX : ℚ := 125/100

/-- `clamp(v, a, b) = Math.max(a, Math.min(b, v))` (src/info.js line 27). -/
def clamp (v a b : ℚ) : ℚ := max a (min b v)

/-- `ease(t) = t * t * (3 - 2 * t)` — smoothstep (src/info.js line 28). -/
def ease (t : ℚ) : ℚ := t * t * (3 - 2 * t)

/-- `vhToPx(vh) = window.innerHeight * vh / 100` (src/info.js line 29). -/
def vhToPx (innerHeight vh : ℚ) : ℚ := innerHeight * vh / 100

/-- One record of the geometry cache: `{ top, height, title }`
(src/info.js lines 35-41; the DOM element reference is dropped). -/
structure CacheEntry where
  top : ℚ
  height : ℚ
  title : String
deriving DecidableEq, Repr

/-- `getAttribute(...) || ''` : a missing attribute becomes the empty string. -/
def orEmpty : Option String → String
  | some s => s
  | none => ""

/-- Raw input for one section: bounding-rect top and height as measured, and
the optional `data-title` attribute. -/
structure SectionInput where
  rectTop : ℚ
  rectHeight : ℚ
  dataTitle : Option String
deriving DecidableEq, Repr

/-- One step of `rebuildCache` (src/info.js lines 36-40):
`top = scrollY + rect.top`, `height = Math.max(1, rect.height)`,
`title = getAttribute('data-title') || ''`. -/
def rebuildCacheEntry (scrollY rectTop rectHeight : ℚ) (attr : Option String) : CacheEntry :=
  { top := scrollY + rectTop, height := max 1 rectHeight, title := orEmpty attr }

/-- `rebuildCache` (src/info.js lines 34-42): map the snapshot over the
section list. -/
def rebuildCache (scrollY : ℚ) (secs : List SectionInput) : List CacheEntry :=
  secs.map (fun s => rebuildCacheEntry scrollY s.rectTop s.rectHeight s.dataTitle)

/-- Clamped progress of the viewport center through a cached section
(src/info.js lines 56-57):
`clamp((viewportCenterY - top) / height, PROGRESS_CLAMP_MIN, PROGRESS_CLAMP_MAX)`. -/
def clampedProgress (center : ℚ) (e : CacheEntry) : ℚ :=
  clamp ((center - e.top) / e.height) PROGRESS_CLAMP_MIN PROGRESS_CLAMP_MAX

/-- The loop's acceptance test `p >= 0 && p <= 1` (src/info.js line 59):
a strict candidate is a section whose clamped progress lies in [0, 1]. -/
def strictCand (center : ℚ) (e : CacheEntry) : Prop :=
  0 ≤ clampedProgress center e ∧ clampedProgress center e ≤ 1

instance (center : ℚ) (e : CacheEntry) : Decidable (strictCand center e) :=
  inferInstanceAs (Decidable (_ ∧ _))

/-- `Math.abs(p - 0.5)` — the fallback distance (src/info.js line 66). -/
def dist05 (center : ℚ) (e : CacheEntry) : ℚ :=
  |clampedProgress center e - 1/2|

/-- `dist < bestDistance`, where `bestDistance` starts at `Infinity`
(modelled by `none`). -/
def distLtBest (d : ℚ) : Option ℚ → Prop
  | none => True
  | some b => d < b

instance (d : ℚ) : (o : Option ℚ) → Decidable (distLtBest d o)
  | none => isTrue trivial
  | some b => inferInstanceAs (Decidable (d < b))

/-- The selection loop of `update` (src/info.js lines 54-73): scan the cache
in document order; the first strict candidate is taken immediately (`break`),
otherwise the nearest-to-0.5 section seen so far is kept as fallback
(strict `<`, so the earliest minimiser wins). -/
def selectGo (center : ℚ) : List CacheEntry → ℕ → Option ℚ → Option (ℕ × CacheEntry) →
    Option (ℕ × CacheEntry)
  | [], _, _, best => best
  | e :: rest, i, bestDistance, best =>
    if strictCand center e then some (i, e)
    else
      if distLtBest (dist05 center e) bestDistance then
        selectGo center rest (i + 1) (some (dist05 center e)) (some (i, e))
      else
        selectGo center rest (i + 1) bestDistance best

/-- `selectActive`: the loop started with `chosen = null`,
`bestDistance = Infinity`, index 0. -/
def selectActive (center : ℚ) (cache : List CacheEntry) : Option (ℕ × CacheEntry) :=
  selectGo center cache 0 none none

/-- The progress-to-translateY mapping inlined in `update`
(src/info.js lines 99-114), parametrised by the two pixel offsets. -/
def infoMapProgressToPx (startPx endPx p : ℚ) : ℚ :=
  if p < HOLD_START then
    startPx + (0 - startPx) * ease (clamp (p / HOLD_START) 0 1)
  else if HOLD_START ≤ p ∧ p ≤ HOLD_END then
    0
  else
    0 + (endPx - 0) * ease (clamp ((p - HOLD_END) / (1 - HOLD_END)) 0 1)

/-- What `update` writes to the label: either hidden (class `visible` removed
and transform reset, src/info.js lines 77-79) or shown with a title and a
translateY in pixels. -/
inductive LabelOutput where
  | hidden : LabelOutput
  | shown : String → ℚ → LabelOutput
deriving DecidableEq, Repr

/-- `update` (src/info.js lines 45-119): select a section, hide the label if
none was chosen or its title is empty, otherwise recompute the clamped
progress and map it to a pixel offset computed from the current viewport
height. -/
def update (innerHeight scrollY : ℚ) (cache : List CacheEntry) : LabelOutput :=
  let viewportCenterY := scrollY + innerHeight / 2
  match selectActive viewportCenterY cache with
  | none => LabelOutput.hidden
  | some (_, chosen) =>
    if chosen.title = "" then LabelOutput.hidden
    else
      let p := clamp ((viewportCenterY - chosen.top) / chosen.height)
        PROGRESS_CLAMP_MIN PROGRESS_CLAMP_MAX
      LabelOutput.shown chosen.title
        (infoMapProgressToPx (vhToPx innerHeight START_OFFSET_VH)
          (vhToPx innerHeight END_OFFSET_VH) p)

end Info

namespace Part000

/-- HOLD.ENTRY_START (src/unnamed/part_000 line 28). -/
def ENTRY_START : ℚ := 8/100

/-- HOLD.HOLD_START (src/unnamed/part_000 line 29). -/
def HOLD_START : ℚ := 25/100

/-- HOLD.HOLD_END (src/unnamed/part_000 line 30). -/
def HOLD_END : ℚ := 75/100

/-- HOLD.EXIT_END (src/unnamed/part_000 line 31). -/
def EXIT_END : ℚ := 92/100

/-- HOLD.START_OFFSET_VH (src/unnamed/part_000 line 32). -/
def START_OFFSET_VH : ℚ := 35

/-- HOLD.END_OFFSET_VH (src/unnamed/part_000 line 33). -/
def END_OFFSET_VH : ℚ := -45

/-- `vhToPx(vh) = window.innerHeight * vh / 100` (src/unnamed/part_000 line 71). -/
def vhToPx (innerHeight vh : ℚ) : ℚ := innerHeight * vh / 100

/-- Body of `holdMapProgressToPx` (src/unnamed/part_000 lines 135-153) with
the two `vhToPx` results abstracted as parameters; the five-phase piecewise
profile.  Note both ramps interpolate with the raw `t` — the file defines no
`ease` function. -/
def holdMapCore (startPx endPx p : ℚ) : ℚ :=
  if p ≤ ENTRY_START then startPx
  else if p < HOLD_START then
    startPx + (0 - startPx) * ((p - ENTRY_START) / (HOLD_START - ENTRY_START))
  else if p ≤ HOLD_END then 0
  else if p < EXIT_END then
    0 + (endPx - 0) * ((p - HOLD_END) / (EXIT_END - HOLD_END))
  else endPx

/-- `holdMapProgressToPx` (src/unnamed/part_000 lines 131-154): the pixel
offsets are recomputed from the viewport height on every call. -/
def holdMapProgressToPx (innerHeight p : ℚ) : ℚ :=
  holdMapCore (vhToPx innerHeight START_OFFSET_VH) (vhToPx innerHeight END_OFFSET_VH) p

/-- One record of part_000's geometry cache (src/unnamed/part_000
lines 75-82): `{ top, height, center, title, index }`; the DOM element
reference is dropped. -/
structure CacheEntry where
  top : ℚ
  height : ℚ
  center : ℚ
  title : String
  index : ℕ
deriving DecidableEq, Repr

/-- One step of part_000's `rebuildCache` (src/unnamed/part_000 lines 75-82):
`top = scrollY + rect.top`, `height = Math.max(1, rect.height)`,
`center = top + height / 2`, `title = getAttribute('data-title') || ''`. -/
def rebuildCacheEntry (scrollY rectTop rectHeight : ℚ) (attr : Option String)
    (i : ℕ) : CacheEntry :=
  { top := scrollY + rectTop
    height := max 1 rectHeight
    center := (scrollY + rectTop) + max 1 rectHeight / 2
    title := Info.orEmpty attr
    index := i }

/-- The selection loop of part_000's `update` (src/unnamed/part_000 lines
162-171): keep the cached section whose `center` is nearest the viewport
center (strict `<`, so the earliest minimiser wins on ties); strict
candidacy plays no role in this variant. -/
def selectBestGo (viewportCenter : ℚ) :
    List CacheEntry → Option ℚ → Option CacheEntry → Option CacheEntry
  | [], _, best => best
  | item :: rest, bestDistance, best =>
    if Info.distLtBest |item.center - viewportCenter| bestDistance then
      selectBestGo viewportCenter rest (some |item.center - viewportCenter|) (some item)
    else
      selectBestGo viewportCenter rest bestDistance best

/-- part_000's selection started with `best = null`, `bestDistance = Infinity`
(src/unnamed/part_000 lines 162-163). -/
def selectBest (viewportCenter : ℚ) (cache : List CacheEntry) : Option CacheEntry :=
  selectBestGo viewportCenter cache none none

end Part000

namespace Part002

/-- holdStart (src/unnamed/part_002 line 15). -/
def holdStart : ℚ := 15/100

/-- holdEnd (src/unnamed/part_002 line 16). -/
def holdEnd : ℚ := 85/100

/-- `vhToPx(vh) = Math.round(window.innerHeight * (vh / 100))`
(src/unnamed/part_002 lines 24-26); `Math.round x = ⌊x + 1/2⌋`. -/
def vhToPx (innerHeight vh : ℚ) : ℤ := ⌊innerHeight * (vh / 100) + 1/2⌋

/-- The progress-to-translateY mapping inlined in `update`
(src/unnamed/part_002 lines 99-112), parametrised by the pixel offsets; the
`clamp` and `ease` helpers are character-identical to the ones in src/info.js. -/
def mapPx (startPx endPx p : ℚ) : ℚ :=
  if p < holdStart then
    startPx + (0 - startPx) * Info.ease (Info.clamp (p / holdStart) 0 1)
  else if holdStart ≤ p ∧ p ≤ holdEnd then
    0
  else
    0 + (endPx - 0) * Info.ease (Info.clamp ((p - holdEnd) / (1 - holdEnd)) 0 1)

/-- Raw input for one part_002 section: `offsetTop`, `offsetHeight` and the
optional `data-title` attribute (src/unnamed/part_002 lines 41-46). -/
structure SectionInput where
  offsetTop : ℚ
  offsetHeight : ℚ
  dataTitle : Option String
deriving DecidableEq, Repr

/-- part_002's raw progress (src/unnamed/part_002 line 50):
`(viewportCenter - secStart) / rectHeight` — the raw `offsetHeight` is the
divisor, read live with no snapshot and no `Math.max(1, ...)` guard. -/
def progress (viewportCenter : ℚ) (sec : SectionInput) : ℚ :=
  (viewportCenter - sec.offsetTop) / sec.offsetHeight

/-- The selection loop of part_002's `update` (src/unnamed/part_002 lines
40-66): skip untitled sections; break on the first titled section whose raw
progress lies in [0,1]; otherwise remember the FIRST titled section whose
progress lies in [-0.5, 1.5] as fallback (`if (!activeSection)`), never
replacing it; sections outside that band are ignored entirely. -/
def selectLoop (viewportCenter : ℚ) :
    List SectionInput → ℕ → Option (ℕ × SectionInput) → Option (ℕ × SectionInput)
  | [], _, active => active
  | sec :: rest, i, active =>
    if Info.orEmpty sec.dataTitle = "" then
      selectLoop viewportCenter rest (i + 1) active
    else
      if -(1/2) ≤ progress viewportCenter sec ∧ progress viewportCenter sec ≤ 3/2 then
        if 0 ≤ progress viewportCenter sec ∧ progress viewportCenter sec ≤ 1 then
          some (i, sec)
        else
          match active with
          | none => selectLoop viewportCenter rest (i + 1) (some (i, sec))
          | some a => selectLoop viewportCenter rest (i + 1) (some a)
      else
        selectLoop viewportCenter rest (i + 1) active

/-- part_002's selection started with `activeSection = null`, index 0. -/
def selectActive (viewportCenter : ℚ) (secs : List SectionInput) :
    Option (ℕ × SectionInput) :=
  selectLoop viewportCenter secs 0 none

end Part002

namespace Part003

/-- START_OFFSET_VH (src/unnamed/part_003 line 44). -/
def START_OFFSET_VH : ℚ := 35

/-- END_OFFSET_VH (src/unnamed/part_003 line 45). -/
def END_OFFSET_VH : ℚ := -45

/-- EXTRA_MARGIN (src/unnamed/part_003 line 46). -/
def EXTRA_MARGIN : ℚ := 5/100

/-- `vhToPx(vh) = window.innerHeight * vh / 100` (src/unnamed/part_003 line 60). -/
def vhToPx (innerHeight vh : ℚ) : ℚ := innerHeight * vh / 100

/-- Raw geometry read for one section in `computeWindows`: the first
paragraph-like element's rect top, the last one's rect bottom (both
viewport-relative) and the section's `offsetHeight`. -/
structure SectionGeom where
  firstTop : ℚ
  lastBottom : ℚ
  offsetHeight : ℚ
  title : String
deriving DecidableEq, Repr

/-- An active window: `{ start, end, title }` (src/unnamed/part_003
lines 89-94); `end` is a Lean keyword so the field is named `endW`. -/
structure Window where
  start : ℚ
  endW : ℚ
  title : String
deriving DecidableEq, Repr

/-- One step of `computeWindows` (src/unnamed/part_003 lines 66-95):
`start = scrollY + firstRect.top - innerHeight/2`,
`end = scrollY + lastRect.bottom - innerHeight/2`,
`safeEnd = end > start + 10 ? end : start + Math.max(100, offsetHeight * 0.5)`,
then both sides are widened by `EXTRA_MARGIN * offsetHeight`. -/
def computeWindow (scrollY innerHeight : ℚ) (g : SectionGeom) : Window :=
  let start := scrollY + g.firstTop - innerHeight / 2
  let endY := scrollY + g.lastBottom - innerHeight / 2
  let safeEnd := if endY > start + 10 then endY else start + max 100 (g.offsetHeight * (1/2))
  { start := start - EXTRA_MARGIN * g.offsetHeight
    endW := safeEnd + EXTRA_MARGIN * g.offsetHeight
    title := g.title }

/-- `computeWindows` (src/unnamed/part_003 lines 65-96). -/
def computeWindows (scrollY innerHeight : ℚ) (secs : List SectionGeom) : List Window :=
  secs.map (computeWindow scrollY innerHeight)

/-- `computeP` (src/unnamed/part_003 lines 146-151): guard a non-positive
denominator, otherwise clamp the raw progress to [0, 1]. -/
def computeP (viewportCenter : ℚ) (w : Window) : ℚ :=
  let denom := w.endW - w.start
  if denom ≤ 0 then 0
  else Info.clamp ((viewportCenter - w.start) / denom) 0 1

/-- Module-level state of part_003: `startPx` and `endPx` are `const`s
computed once when the script runs (src/unnamed/part_003 lines 99-100),
`windows` is the rebuildable cache (line 108). -/
structure ModuleState where
  startPx : ℚ
  endPx : ℚ
  windows : List Window
deriving DecidableEq, Repr

/-- Script load: capture `startPx`/`endPx` from the viewport height at that
moment and build the windows. -/
def initState (innerHeight scrollY : ℚ) (secs : List SectionGeom) : ModuleState :=
  { startPx := vhToPx innerHeight START_OFFSET_VH
    endPx := vhToPx innerHeight END_OFFSET_VH
    windows := computeWindows scrollY innerHeight secs }

/-- `onResize` (src/unnamed/part_003 lines 189-197): only `rebuild()` runs —
the windows are recomputed from the new geometry, but the `const`
`startPx`/`endPx` captured at load are left as they are (the comment in the
source acknowledges they depend on vh and says to recompute them, yet the code
does not). -/
def onResize (st : ModuleState) (innerHeight scrollY : ℚ) (secs : List SectionGeom) :
    ModuleState :=
  { st with windows := computeWindows scrollY innerHeight secs }

/-- `mapProgressToPx` (src/unnamed/part_003 lines 102-105): linear
interpolation using the module-level `startPx`/`endPx`. -/
def mapProgressToPx (st : ModuleState) (p : ℚ) : ℚ :=
  st.startPx + (st.endPx - st.startPx) * p

end Part003

namespace Throttle

/-- The scheduler state around `onScroll` (src/info.js lines 122-131 and
src/unnamed/part_000 lines 218-230): the `ticking` flag, the number of rAF
callbacks queued for the next frame, and how many times `update()` has run. -/
structure SchedState where
  ticking : Bool
  queued : ℕ
  evals : ℕ
deriving DecidableEq, Repr

/-- Initial state: `let ticking = false`, nothing queued, no evaluations. -/
def idle : SchedState := ⟨false, 0, 0⟩

/-- `onScroll`: if `ticking` is set the signal does nothing; otherwise one
rAF callback is scheduled and `ticking` is set. -/
def onScroll (s : SchedState) : SchedState :=
  if s.ticking then s
  else { s with ticking := true, queued := s.queued + 1 }

/-- The next frame: every queued callback runs `update(); ticking = false`,
so the evaluation count grows by the number of queued callbacks and the flag
is cleared when at least one ran. -/
def runFrame (s : SchedState) : SchedState :=
  if s.queued = 0 then s
  else { ticking := false, queued := 0, evals := s.evals + s.queued }

end Throttle

/-! ### Helper lemmas -/

namespace Info

theorem clamp_eq_self {v a b : ℚ} (h0 : a ≤ v) (h1 : v ≤ b) : clamp v a b = v := by
  unfold clamp
  rw [min_eq_right h1, max_eq_right h0]

theorem clamp_le_right {v a b : ℚ} (hab : a ≤ b) : clamp v a b ≤ b :=
  max_le hab (min_le_left b v)

theorem le_clamp_left {v a b : ℚ} : a ≤ clamp v a b :=
  le_max_left a (min b v)

end Info

namespace Part000

theorem div_le_div_same_pos {a b d : ℚ} (hd : 0 < d) (h : a ≤ b) : a / d ≤ b / d := by
  rw [div_eq_mul_inv, div_eq_mul_inv]
  exact mul_le_mul_of_nonneg_right h (inv_nonneg.mpr hd.le)

theorem holdMapCore_entry {s e p : ℚ} (h : p ≤ ENTRY_START) : holdMapCore s e p = s := by
  unfold holdMapCore
  rw [if_pos h]

theorem holdMapCore_ramp1 {s e p : ℚ} (h1 : ENTRY_START < p) (h2 : p < HOLD_START) :
    holdMapCore s e p = s + (0 - s) * ((p - ENTRY_START) / (HOLD_START - ENTRY_START)) := by
  unfold holdMapCore
  rw [if_neg (not_le.mpr h1), if_pos h2]

theorem holdMapCore_hold {s e p : ℚ} (h1 : HOLD_START ≤ p) (h2 : p ≤ HOLD_END) :
    holdMapCore s e p = 0 := by
  unfold holdMapCore
  have hA : ¬ p ≤ ENTRY_START := by
    simp only [ENTRY_START]
    simp only [HOLD_START] at h1
    linarith
  rw [if_neg hA, if_neg (not_lt.mpr h1), if_pos h2]

theorem holdMapCore_ramp2 {s e p : ℚ} (h1 : HOLD_END < p) (h2 : p < EXIT_END) :
    holdMapCore s e p = 0 + (e - 0) * ((p - HOLD_END) / (EXIT_END - HOLD_END)) := by
  unfold holdMapCore
  have hA : ¬ p ≤ ENTRY_START := by
    simp only [ENTRY_START]
    simp only [HOLD_END] at h1
    linarith
  have hB : ¬ p < HOLD_START := by
    simp only [HOLD_START]
    simp only [HOLD_END] at h1
    linarith
  rw [if_neg hA, if_neg hB, if_neg (not_le.mpr h1), if_pos h2]

theorem holdMapCore_exit {s e p : ℚ} (h : EXIT_END ≤ p) : holdMapCore s e p = e := by
  unfold holdMapCore
  have hA : ¬ p ≤ ENTRY_START := by
    simp only [ENTRY_START]
    simp only [EXIT_END] at h
    linarith
  have hB : ¬ p < HOLD_START := by
    simp only [HOLD_START]
    simp only [EXIT_END] at h
    linarith
  have hC : ¬ p ≤ HOLD_END := by
    simp only [HOLD_END]
    simp only [EXIT_END] at h
    linarith
  rw [if_neg hA, if_neg hB, if_neg hC, if_neg (not_lt.mpr h)]

theorem holdMapCore_le_start {s e : ℚ} (hs : 0 < s) (he : e < 0) (p : ℚ) :
    holdMapCore s e p ≤ s := by
  unfold holdMapCore
  split_ifs with h1 h2 h3 h4
  · exact le_refl s
  · have hd : (0:ℚ) < HOLD_START - ENTRY_START := by norm_num [HOLD_START, ENTRY_START]
    have ht : 0 ≤ (p - ENTRY_START) / (HOLD_START - ENTRY_START) :=
      div_nonneg (by linarith [not_le.mp h1]) hd.le
    nlinarith
  · linarith
  · have hd : (0:ℚ) < EXIT_END - HOLD_END := by norm_num [EXIT_END, HOLD_END]
    have ht : 0 ≤ (p - HOLD_END) / (EXIT_END - HOLD_END) :=
      div_nonneg (by linarith [not_le.mp h3]) hd.le
    nlinarith
  · linarith

theorem holdMapCore_nonpos {s e : ℚ} (he : e < 0) {p : ℚ} (h : HOLD_START ≤ p) :
    holdMapCore s e p ≤ 0 := by
  unfold holdMapCore
  split_ifs with h1 h2 h3 h4
  · exfalso
    simp only [ENTRY_START] at h1
    simp only [HOLD_START] at h
    linarith
  · exact absurd h2 (not_lt.mpr h)
  · exact le_refl 0
  · have hd : (0:ℚ) < EXIT_END - HOLD_END := by norm_num [EXIT_END, HOLD_END]
    have ht : 0 ≤ (p - HOLD_END) / (EXIT_END - HOLD_END) :=
      div_nonneg (by linarith [not_le.mp h3]) hd.le
    nlinarith
  · linarith

theorem ramp1_formula_nonneg {s p : ℚ} (hs : 0 < s) (h : p ≤ HOLD_START) :
    0 ≤ s + (0 - s) * ((p - ENTRY_START) / (HOLD_START - ENTRY_START)) := by
  have hd : (0:ℚ) < HOLD_START - ENTRY_START := by norm_num [HOLD_START, ENTRY_START]
  have ht : (p - ENTRY_START) / (HOLD_START - ENTRY_START) ≤ 1 := by
    rw [div_le_one hd]
    linarith
  nlinarith

end Part000

namespace Info

theorem infoMap_ramp1 {s e p : ℚ} (h0 : 0 ≤ p) (h2 : p < HOLD_START) :
    infoMapProgressToPx s e p = s + (0 - s) * ease (p / HOLD_START) := by
  unfold infoMapProgressToPx
  rw [if_pos h2]
  have hHS : (0:ℚ) < HOLD_START := by norm_num [HOLD_START]
  rw [clamp_eq_self (div_nonneg h0 hHS.le) (by rw [div_le_one hHS]; exact h2.le)]

theorem infoMap_ramp2 {s e p : ℚ} (h1 : HOLD_END < p) (h2 : p ≤ 1) :
    infoMapProgressToPx s e p = 0 + (e - 0) * ease ((p - HOLD_END) / (1 - HOLD_END)) := by
  unfold infoMapProgressToPx
  have hA : ¬ p < HOLD_START := by
    rw [not_lt]
    simp only [HOLD_START]
    simp only [HOLD_END] at h1
    linarith
  have hB : ¬ (HOLD_START ≤ p ∧ p ≤ HOLD_END) := fun hc => absurd hc.2 (not_le.mpr h1)
  rw [if_neg hA, if_neg hB]
  have hd : (0:ℚ) < 1 - HOLD_END := by norm_num [HOLD_END]
  rw [clamp_eq_self (div_nonneg (by linarith) hd.le) (by rw [div_le_one hd]; linarith)]

end Info

namespace Part002

theorem mapPx_ramp1 {s e p : ℚ} (h0 : 0 ≤ p) (h2 : p < holdStart) :
    mapPx s e p = s + (0 - s) * Info.ease (p / holdStart) := by
  unfold mapPx
  rw [if_pos h2]
  have hHS : (0:ℚ) < holdStart := by norm_num [holdStart]
  rw [Info.clamp_eq_self (div_nonneg h0 hHS.le) (by rw [div_le_one hHS]; exact h2.le)]

theorem mapPx_ramp2 {s e p : ℚ} (h1 : holdEnd < p) (h2 : p ≤ 1) :
    mapPx s e p = 0 + (e - 0) * Info.ease ((p - holdEnd) / (1 - holdEnd)) := by
  unfold mapPx
  have hA : ¬ p < holdStart := by
    rw [not_lt]
    simp only [holdStart]
    simp only [holdEnd] at h1
    linarith
  have hB : ¬ (holdStart ≤ p ∧ p ≤ holdEnd) := fun hc => absurd hc.2 (not_le.mpr h1)
  rw [if_neg hA, if_neg hB]
  have hd : (0:ℚ) < 1 - holdEnd := by norm_num [holdEnd]
  rw [Info.clamp_eq_self (div_nonneg (by linarith) hd.le) (by rw [div_le_one hd]; linarith)]

end Part002

/-! ### Claim theorems -/

/-- C2 counterexample: at p = 13/100, strictly between ENTRY_START and
HOLD_START, part_000's `holdMapProgressToPx` does NOT return the eased lerp
`lerp(startOffset, 0, ease(t))` — its entry ramp is plain linear. -/
theorem claim_C2_counterexample :
    Part000.ENTRY_START < 13/100 ∧ (13:ℚ)/100 < Part000.HOLD_START ∧
    Part000.holdMapProgressToPx 100 (13/100) ≠
      Part000.vhToPx 100 Part000.START_OFFSET_VH +
        (0 - Part000.vhToPx 100 Part000.START_OFFSET_VH) *
          Info.ease ((13/100 - Part000.ENTRY_START) /
            (Part000.HOLD_START - Part000.ENTRY_START)) := by
  refine ⟨by norm_num [Part000.ENTRY_START], by norm_num [Part000.HOLD_START], ?_⟩
  norm_num [Part000.holdMapProgressToPx, Part000.holdMapCore, Part000.vhToPx, Info.ease,
    Part000.ENTRY_START, Part000.HOLD_START, Part000.HOLD_END, Part000.EXIT_END,
    Part000.START_OFFSET_VH, Part000.END_OFFSET_VH]

/-- C2 (amended): the five-phase hold mapping of part_000 interpolates both
ramps with the raw parameter t (plain linear interpolation — no ease), while
the three-phase hold mappings of src/info.js and part_002 apply
`ease(t) = t*t*(3-2*t)` on both ramps (with entryStart = 0 and exitEnd = 1). -/
theorem claim_C2_ramp_interpolation (startPx endPx p : ℚ) :
    (Part000.ENTRY_START < p → p < Part000.HOLD_START →
      Part000.holdMapCore startPx endPx p =
        startPx + (0 - startPx) *
          ((p - Part000.ENTRY_START) / (Part000.HOLD_START - Part000.ENTRY_START))) ∧
    (Part000.HOLD_END < p → p < Part000.EXIT_END →
      Part000.holdMapCore startPx endPx p =
        0 + (endPx - 0) * ((p - Part000.HOLD_END) / (Part000.EXIT_END - Part000.HOLD_END))) ∧
    (0 ≤ p → p < Info.HOLD_START →
      Info.infoMapProgressToPx startPx endPx p =
        startPx + (0 - startPx) * Info.ease (p / Info.HOLD_START)) ∧
    (Info.HOLD_END < p → p ≤ 1 →
      Info.infoMapProgressToPx startPx endPx p =
        0 + (endPx - 0) * Info.ease ((p - Info.HOLD_END) / (1 - Info.HOLD_END))) ∧
    (0 ≤ p → p < Part002.holdStart →
      Part002.mapPx startPx endPx p =
        startPx + (0 - startPx) * Info.ease (p / Part002.holdStart)) ∧
    (Part002.holdEnd < p → p ≤ 1 →
      Part002.mapPx startPx endPx p =
        0 + (endPx - 0) * Info.ease ((p - Part002.holdEnd) / (1 - Part002.holdEnd))) :=
  ⟨fun h1 h2 => Part000.holdMapCore_ramp1 h1 h2,
   fun h1 h2 => Part000.holdMapCore_ramp2 h1 h2,
   fun h1 h2 => Info.infoMap_ramp1 h1 h2,
   fun h1 h2 => Info.infoMap_ramp2 h1 h2,
   fun h1 h2 => Part002.mapPx_ramp1 h1 h2,
   fun h1 h2 => Part002.mapPx_ramp2 h1 h2⟩

/-- C2 witness: the amended ramp characterisations evaluated inside each
ramp at concrete progress values. -/
theorem claim_C2_witness :
    Part000.holdMapCore 35 (-45) (13/100) =
      35 + (0 - 35) * ((13/100 - Part000.ENTRY_START) /
        (Part000.HOLD_START - Part000.ENTRY_START)) ∧
    Part000.holdMapCore 35 (-45) (80/100) =
      0 + ((-45) - 0) * ((80/100 - Part000.HOLD_END) /
        (Part000.EXIT_END - Part000.HOLD_END)) ∧
    Info.infoMapProgressToPx 35 (-45) (1/10) =
      35 + (0 - 35) * Info.ease ((1/10) / Info.HOLD_START) ∧
    Info.infoMapProgressToPx 35 (-45) (9/10) =
      0 + ((-45) - 0) * Info.ease ((9/10 - Info.HOLD_END) / (1 - Info.HOLD_END)) ∧
    Part002.mapPx 35 (-45) (1/10) =
      35 + (0 - 35) * Info.ease ((1/10) / Part002.holdStart) ∧
    Part002.mapPx 35 (-45) (9/10) =
      0 + ((-45) - 0) * Info.ease ((9/10 - Part002.holdEnd) / (1 - Part002.holdEnd)) :=
  ⟨(claim_C2_ramp_interpolation 35 (-45) (13/100)).1
      (by norm_num [Part000.ENTRY_START]) (by norm_num [Part000.HOLD_START]),
   (claim_C2_ramp_interpolation 35 (-45) (80/100)).2.1
      (by norm_num [Part000.HOLD_END]) (by norm_num [Part000.EXIT_END]),
   (claim_C2_ramp_interpolation 35 (-45) (1/10)).2.2.1
      (by norm_num) (by norm_num [Info.HOLD_START]),
   (claim_C2_ramp_interpolation 35 (-45) (9/10)).2.2.2.1
      (by norm_num [Info.HOLD_END]) (by norm_num),
   (claim_C2_ramp_interpolation 35 (-45) (1/10)).2.2.2.2.1
      (by norm_num) (by norm_num [Part002.holdStart]),
   (claim_C2_ramp_interpolation 35 (-45) (9/10)).2.2.2.2.2
      (by norm_num [Part002.holdEnd]) (by norm_num)⟩

/-- C3: boundary exactness of the hold-profile mappings — at or before
entryStart the mapping is exactly startOffset, at or after exitEnd exactly
endOffset, at holdStart and holdEnd exactly 0, and the adjacent ramp formulas
take those same values at the phase boundaries (no discontinuity); stated for
part_000's five-phase `holdMapCore` and for src/info.js's three-phase mapping
(where entryStart = 0 and exitEnd = 1). -/
theorem claim_C3_boundary_exactness (startPx endPx p : ℚ) :
    (p ≤ Part000.ENTRY_START → Part000.holdMapCore startPx endPx p = startPx) ∧
    (Part000.EXIT_END ≤ p → Part000.holdMapCore startPx endPx p = endPx) ∧
    Part000.holdMapCore startPx endPx Part000.HOLD_START = 0 ∧
    Part000.holdMapCore startPx endPx Part000.HOLD_END = 0 ∧
    startPx + (0 - startPx) *
      ((Part000.HOLD_START - Part000.ENTRY_START) /
        (Part000.HOLD_START - Part000.ENTRY_START)) = 0 ∧
    0 + (endPx - 0) *
      ((Part000.HOLD_END - Part000.HOLD_END) /
        (Part000.EXIT_END - Part000.HOLD_END)) = 0 ∧
    (p ≤ 0 → Info.infoMapProgressToPx startPx endPx p = startPx) ∧
    (1 ≤ p → Info.infoMapProgressToPx startPx endPx p = endPx) ∧
    Info.infoMapProgressToPx startPx endPx Info.HOLD_START = 0 ∧
    Info.infoMapProgressToPx startPx endPx Info.HOLD_END = 0 ∧
    startPx + (0 - startPx) *
      Info.ease (Info.clamp (Info.HOLD_START / Info.HOLD_START) 0 1) = 0 ∧
    0 + (endPx - 0) *
      Info.ease (Info.clamp ((Info.HOLD_END - Info.HOLD_END) / (1 - Info.HOLD_END)) 0 1) = 0 := by
  refine ⟨fun h => Part000.holdMapCore_entry h, fun h => Part000.holdMapCore_exit h,
    ?_, ?_, ?_, ?_, ?_, ?_, ?_, ?_, ?_, ?_⟩
  · exact Part000.holdMapCore_hold (le_refl _)
      (by norm_num [Part000.HOLD_START, Part000.HOLD_END])
  · exact Part000.holdMapCore_hold
      (by norm_num [Part000.HOLD_START, Part000.HOLD_END]) (le_refl _)
  · rw [div_self (by norm_num [Part000.HOLD_START, Part000.ENTRY_START] :
      Part000.HOLD_START - Part000.ENTRY_START ≠ 0)]
    ring
  · rw [sub_self, zero_div]
    ring
  · intro h
    unfold Info.infoMapProgressToPx
    rw [if_pos (by simp only [Info.HOLD_START]; linarith)]
    have hHS : (0:ℚ) < Info.HOLD_START := by norm_num [Info.HOLD_START]
    have hv : p / Info.HOLD_START ≤ 0 := by
      rw [div_eq_mul_inv]
      have := mul_le_mul_of_nonneg_right h (inv_nonneg.mpr hHS.le)
      simpa using this
    unfold Info.clamp
    rw [min_eq_right (hv.trans (by norm_num)), max_eq_left hv]
    have h2 : Info.ease 0 = 0 := by unfold Info.ease; norm_num
    rw [h2]
    ring
  · intro h
    unfold Info.infoMapProgressToPx
    have hA : ¬ p < Info.HOLD_START := by
      rw [not_lt]
      simp only [Info.HOLD_START]
      linarith
    have hB : ¬ (Info.HOLD_START ≤ p ∧ p ≤ Info.HOLD_END) := by
      rintro ⟨-, hc⟩
      simp only [Info.HOLD_END] at hc
      linarith
    rw [if_neg hA, if_neg hB]
    have hd : (0:ℚ) < 1 - Info.HOLD_END := by norm_num [Info.HOLD_END]
    have hv : 1 ≤ (p - Info.HOLD_END) / (1 - Info.HOLD_END) := by
      rw [le_div_iff₀ hd]
      simp only [Info.HOLD_END]
      linarith
    unfold Info.clamp
    rw [min_eq_left hv, max_eq_right (by norm_num : (0:ℚ) ≤ 1)]
    have h2 : Info.ease 1 = 1 := by unfold Info.ease; norm_num
    rw [h2]
    ring
  · unfold Info.infoMapProgressToPx
    rw [if_neg (lt_irrefl _), if_pos ⟨le_refl _,
      by norm_num [Info.HOLD_START, Info.HOLD_END]⟩]
  · unfold Info.infoMapProgressToPx
    rw [if_neg (by norm_num [Info.HOLD_START, Info.HOLD_END] :
        ¬ Info.HOLD_END < Info.HOLD_START),
      if_pos ⟨by norm_num [Info.HOLD_START, Info.HOLD_END], le_refl _⟩]
  · rw [div_self (by norm_num [Info.HOLD_START] : Info.HOLD_START ≠ 0)]
    have h1 : Info.clamp (1:ℚ) 0 1 = 1 := by unfold Info.clamp; norm_num
    have h2 : Info.ease 1 = 1 := by unfold Info.ease; norm_num
    rw [h1, h2]
    ring
  · rw [sub_self, zero_div]
    have h1 : Info.clamp (0:ℚ) 0 1 = 0 := by unfold Info.clamp; norm_num
    have h2 : Info.ease 0 = 0 := by unfold Info.ease; norm_num
    rw [h1, h2]
    ring

/-- C3 witness: boundary values evaluated at concrete inputs in each of the
hypothesis-bearing regimes. -/
theorem claim_C3_witness :
    Part000.holdMapCore 35 (-45) (1/100) = 35 ∧
    Part000.holdMapCore 35 (-45) (95/100) = -45 ∧
    Info.infoMapProgressToPx 35 (-45) (-(1/10)) = 35 ∧
    Info.infoMapProgressToPx 35 (-45) (11/10) = -45 :=
  ⟨(claim_C3_boundary_exactness 35 (-45) (1/100)).1 (by norm_num [Part000.ENTRY_START]),
   (claim_C3_boundary_exactness 35 (-45) (95/100)).2.1 (by norm_num [Part000.EXIT_END]),
   (claim_C3_boundary_exactness 35 (-45) (-(1/10))).2.2.2.2.2.2.1 (by norm_num),
   (claim_C3_boundary_exactness 35 (-45) (11/10)).2.2.2.2.2.2.2.1 (by norm_num)⟩

/-- C4: over the clamped progress range, with startOffset > 0 > endOffset,
part_000's hold-profile mapping is monotonically non-increasing:
p1 ≤ p2 implies map(p1) ≥ map(p2). -/
theorem claim_C4_monotone (s e p1 p2 : ℚ) (hs : 0 < s) (he : e < 0)
    (hlo : -(25/100) ≤ p1) (h12 : p1 ≤ p2) (hhi : p2 ≤ 125/100) :
    Part000.holdMapCore s e p2 ≤ Part000.holdMapCore s e p1 := by
  rcases le_or_lt p1 Part000.ENTRY_START with h1a | h1a
  · rw [Part000.holdMapCore_entry h1a]
    exact Part000.holdMapCore_le_start hs he p2
  · rcases lt_or_le p1 Part000.HOLD_START with h1b | h1b
    · rw [Part000.holdMapCore_ramp1 h1a h1b]
      rcases le_or_lt p2 Part000.ENTRY_START with h2a | h2a
      · linarith
      · rcases lt_or_le p2 Part000.HOLD_START with h2b | h2b
        · rw [Part000.holdMapCore_ramp1 h2a h2b]
          have hd : (0:ℚ) < Part000.HOLD_START - Part000.ENTRY_START := by
            norm_num [Part000.HOLD_START, Part000.ENTRY_START]
          have ht := Part000.div_le_div_same_pos hd
            (by linarith : p1 - Part000.ENTRY_START ≤ p2 - Part000.ENTRY_START)
          have := mul_le_mul_of_nonpos_left ht (by linarith : (0 - s) ≤ 0)
          linarith
        · have hv2 := Part000.holdMapCore_nonpos he h2b (s := s)
          have hv1 := Part000.ramp1_formula_nonneg hs h1b.le (p := p1)
          linarith
    · rcases le_or_lt p1 Part000.HOLD_END with h1c | h1c
      · rw [Part000.holdMapCore_hold h1b h1c]
        exact Part000.holdMapCore_nonpos he (le_trans h1b h12)
      · rcases lt_or_le p1 Part000.EXIT_END with h1d | h1d
        · rw [Part000.holdMapCore_ramp2 h1c h1d]
          have hd : (0:ℚ) < Part000.EXIT_END - Part000.HOLD_END := by
            norm_num [Part000.EXIT_END, Part000.HOLD_END]
          rcases lt_or_le p2 Part000.EXIT_END with h2d | h2d
          · rw [Part000.holdMapCore_ramp2 (lt_of_lt_of_le h1c h12) h2d]
            have ht := Part000.div_le_div_same_pos hd
              (by linarith : p1 - Part000.HOLD_END ≤ p2 - Part000.HOLD_END)
            have := mul_le_mul_of_nonpos_left ht (by linarith : (e - 0) ≤ 0)
            linarith
          · rw [Part000.holdMapCore_exit h2d]
            have ht1 : (p1 - Part000.HOLD_END) / (Part000.EXIT_END - Part000.HOLD_END) ≤ 1 := by
              rw [div_le_one hd]
              linarith
            have := mul_le_mul_of_nonpos_left ht1 (by linarith : (e - 0) ≤ 0)
            linarith
        · rw [Part000.holdMapCore_exit h1d, Part000.holdMapCore_exit (le_trans h1d h12)]

/-- C4 witness: monotonicity applied at concrete offsets and a concrete
pair of progress values. -/
theorem claim_C4_witness :
    Part000.holdMapCore 35 (-45) (9/10) ≤ Part000.holdMapCore 35 (-45) (1/10) :=
  claim_C4_monotone 35 (-45) (1/10) (9/10) (by norm_num) (by norm_num)
    (by norm_num) (by norm_num) (by norm_num)

namespace Info

theorem distLtBest_some {d b : ℚ} : distLtBest d (some b) ↔ d < b := Iff.rfl

theorem distLtBest_none {d : ℚ} : distLtBest d none := trivial

theorem selectGo_first_strict (c : ℚ) (e : CacheEntry) (l2 : List CacheEntry)
    (he : strictCand c e) :
    ∀ (l1 : List CacheEntry), (∀ x ∈ l1, ¬ strictCand c x) →
      ∀ (i : ℕ) (bd : Option ℚ) (best : Option (ℕ × CacheEntry)),
        selectGo c (l1 ++ e :: l2) i bd best = some (i + l1.length, e) := by
  intro l1
  induction l1 with
  | nil =>
    intro _ i bd best
    simp [selectGo, he]
  | cons a l1 ih =>
    intro h i bd best
    have ha : ¬ strictCand c a := h a (List.mem_cons_self a l1)
    have h' : ∀ x ∈ l1, ¬ strictCand c x := fun x hx => h x (List.mem_cons_of_mem a hx)
    have hidx : i + (a :: l1).length = (i + 1) + l1.length := by
      simp only [List.length_cons]
      omega
    simp only [List.cons_append, selectGo]
    rw [if_neg ha]
    split_ifs with hlt
    · rw [hidx]
      exact ih h' (i + 1) (some (dist05 c a)) (some (i, a))
    · rw [hidx]
      exact ih h' (i + 1) bd best

theorem selectGo_min (c : ℚ) :
    ∀ (l : List CacheEntry), (∀ x ∈ l, ¬ strictCand c x) →
      ∀ (i j : ℕ) (e0 : CacheEntry),
        ∃ k e, selectGo c l i (some (dist05 c e0)) (some (j, e0)) = some (k, e) ∧
          dist05 c e ≤ dist05 c e0 ∧ ∀ x ∈ l, dist05 c e ≤ dist05 c x := by
  intro l
  induction l with
  | nil =>
    intro _ i j e0
    refine ⟨j, e0, ?_, le_refl _, ?_⟩
    · simp [selectGo]
    · intro x hx
      simp at hx
  | cons a l ih =>
    intro h i j e0
    have ha : ¬ strictCand c a := h a (List.mem_cons_self a l)
    have h' : ∀ x ∈ l, ¬ strictCand c x := fun x hx => h x (List.mem_cons_of_mem a hx)
    by_cases hlt : dist05 c a < dist05 c e0
    · obtain ⟨k, e, hsel, hle, hall⟩ := ih h' (i + 1) i a
      refine ⟨k, e, ?_, le_trans hle hlt.le, ?_⟩
      · simp only [selectGo]
        rw [if_neg ha, if_pos (distLtBest_some.mpr hlt)]
        exact hsel
      · intro x hx
        rcases List.mem_cons.mp hx with rfl | hx
        · exact hle
        · exact hall x hx
    · obtain ⟨k, e, hsel, hle, hall⟩ := ih h' (i + 1) j e0
      refine ⟨k, e, ?_, hle, ?_⟩
      · simp only [selectGo]
        rw [if_neg ha, if_neg (fun hc => hlt (distLtBest_some.mp hc))]
        exact hsel
      · intro x hx
        rcases List.mem_cons.mp hx with rfl | hx
        · exact le_trans hle (not_lt.mp hlt)
        · exact hall x hx

theorem selectActive_min (c : ℚ) (a : CacheEntry) (rest : List CacheEntry)
    (h : ∀ x ∈ a :: rest, ¬ strictCand c x) :
    ∃ k e, selectActive c (a :: rest) = some (k, e) ∧
      ∀ x ∈ a :: rest, dist05 c e ≤ dist05 c x := by
  have ha : ¬ strictCand c a := h a (List.mem_cons_self a rest)
  have h' : ∀ x ∈ rest, ¬ strictCand c x := fun x hx => h x (List.mem_cons_of_mem a hx)
  obtain ⟨k, e, hsel, hle, hall⟩ := selectGo_min c rest h' 1 0 a
  refine ⟨k, e, ?_, ?_⟩
  · unfold selectActive
    simp only [selectGo]
    rw [if_neg ha, if_pos distLtBest_none]
    exact hsel
  · intro x hx
    rcases List.mem_cons.mp hx with rfl | hx
    · exact hle
    · exact hall x hx

end Info

namespace Part000

theorem selectBestGo_min (c : ℚ) :
    ∀ (l : List CacheEntry) (e0 : CacheEntry),
      ∃ e, selectBestGo c l (some |e0.center - c|) (some e0) = some e ∧
        |e.center - c| ≤ |e0.center - c| ∧ ∀ x ∈ l, |e.center - c| ≤ |x.center - c| := by
  intro l
  induction l with
  | nil =>
    intro e0
    refine ⟨e0, ?_, le_refl _, ?_⟩
    · simp [selectBestGo]
    · intro x hx
      simp at hx
  | cons a l ih =>
    intro e0
    by_cases hlt : |a.center - c| < |e0.center - c|
    · obtain ⟨e, hsel, hle, hall⟩ := ih a
      refine ⟨e, ?_, le_trans hle hlt.le, ?_⟩
      · simp only [selectBestGo]
        rw [if_pos (Info.distLtBest_some.mpr hlt)]
        exact hsel
      · intro x hx
        rcases List.mem_cons.mp hx with rfl | hx
        · exact hle
        · exact hall x hx
    · obtain ⟨e, hsel, hle, hall⟩ := ih e0
      refine ⟨e, ?_, hle, ?_⟩
      · simp only [selectBestGo]
        rw [if_neg (fun hc => hlt (Info.distLtBest_some.mp hc))]
        exact hsel
      · intro x hx
        rcases List.mem_cons.mp hx with rfl | hx
        · exact le_trans hle (not_lt.mp hlt)
        · exact hall x hx

theorem selectBest_min (c : ℚ) (a : CacheEntry) (rest : List CacheEntry) :
    ∃ e, selectBest c (a :: rest) = some e ∧
      ∀ x ∈ a :: rest, |e.center - c| ≤ |x.center - c| := by
  obtain ⟨e, hsel, hle, hall⟩ := selectBestGo_min c rest a
  refine ⟨e, ?_, ?_⟩
  · unfold selectBest
    simp only [selectBestGo]
    rw [if_pos Info.distLtBest_none]
    exact hsel
  · intro x hx
    rcases List.mem_cons.mp hx with rfl | hx
    · exact hle
    · exact hall x hx

end Part000

/-- C1 counterexample: with part_000's cache built from sections
{top 0, height 10} and {top 10, height 1000} and viewport center 20, index 1
is the only strict candidate (clamped progress 1/100 lies in [0,1]; index 0
clamps to 1.25), yet part_000's `update` selection returns the index-0 entry
(center distance 15 against 490), not the first strict candidate. -/
theorem claim_C1_counterexample :
    Part000.selectBest 20
      [Part000.rebuildCacheEntry 0 0 10 (some "A") 0,
       Part000.rebuildCacheEntry 0 10 1000 (some "B") 1] =
      some (Part000.rebuildCacheEntry 0 0 10 (some "A") 0) ∧
    ¬ Info.strictCand 20 ⟨0, 10, "A"⟩ ∧
    Info.strictCand 20 ⟨10, 1000, "B"⟩ := by
  refine ⟨?_, ?_, ?_⟩
  · norm_num [Part000.selectBest, Part000.selectBestGo, Part000.rebuildCacheEntry,
      Info.distLtBest, Info.orEmpty, abs, min_def, max_def]
  · norm_num [Info.strictCand, Info.clampedProgress, Info.clamp,
      Info.PROGRESS_CLAMP_MIN, Info.PROGRESS_CLAMP_MAX, min_def, max_def]
  · norm_num [Info.strictCand, Info.clampedProgress, Info.clamp,
      Info.PROGRESS_CLAMP_MIN, Info.PROGRESS_CLAMP_MAX, min_def, max_def]

/-- C1 (amended): the selection policy is per-variant — src/info.js's
`update` selects the first strict candidate in document order (earliest
index), regardless of any later strict candidate; part_000's `update`
instead selects the cached section whose center is nearest the viewport
center, irrespective of strict candidacy. -/
theorem claim_C1_selection_policies :
    (∀ (c : ℚ) (l1 : List Info.CacheEntry) (e : Info.CacheEntry)
        (l2 : List Info.CacheEntry),
      (∀ x ∈ l1, ¬ Info.strictCand c x) → Info.strictCand c e →
      Info.selectActive c (l1 ++ e :: l2) = some (l1.length, e)) ∧
    (∀ (c : ℚ) (a : Part000.CacheEntry) (rest : List Part000.CacheEntry)
        (e : Part000.CacheEntry),
      Part000.selectBest c (a :: rest) = some e →
      ∀ x ∈ a :: rest, |e.center - c| ≤ |x.center - c|) := by
  constructor
  · intro c l1 e l2 h1 he
    unfold Info.selectActive
    have h := Info.selectGo_first_strict c e l2 he l1 h1 0 none none
    simpa using h
  · intro c a rest e hsel x hx
    obtain ⟨e', hsel', hall⟩ := Part000.selectBest_min c a rest
    rw [hsel] at hsel'
    have he : e = e' := by simpa using hsel'
    rw [he]
    exact hall x hx

/-- C1 witness: both policies at concrete caches — info.js picks the first
strict candidate (index 1) past a non-candidate prefix and before a later
strict candidate; part_000 picks the center-nearest entry. -/
theorem claim_C1_witness :
    Info.selectActive 50
      ([⟨200, 100, "X"⟩] ++ (⟨0, 100, "A"⟩ : Info.CacheEntry) :: [⟨0, 100, "B"⟩]) =
      some (1, ⟨0, 100, "A"⟩) ∧
    |(⟨0, 10, 5, "A", 0⟩ : Part000.CacheEntry).center - 20| ≤
      |(⟨10, 1000, 510, "B", 1⟩ : Part000.CacheEntry).center - 20| := by
  constructor
  · have h := claim_C1_selection_policies.1 50 [⟨200, 100, "X"⟩] ⟨0, 100, "A"⟩
      [⟨0, 100, "B"⟩]
      (by
        intro x hx
        simp only [List.mem_singleton] at hx
        subst hx
        norm_num [Info.strictCand, Info.clampedProgress, Info.clamp,
          Info.PROGRESS_CLAMP_MIN, Info.PROGRESS_CLAMP_MAX, min_def, max_def])
      (by norm_num [Info.strictCand, Info.clampedProgress, Info.clamp,
        Info.PROGRESS_CLAMP_MIN, Info.PROGRESS_CLAMP_MAX, min_def, max_def])
    simpa using h
  · exact claim_C1_selection_policies.2 20 ⟨0, 10, 5, "A", 0⟩ [⟨10, 1000, 510, "B", 1⟩]
      ⟨0, 10, 5, "A", 0⟩
      (by norm_num [Part000.selectBest, Part000.selectBestGo, Info.distLtBest, abs])
      ⟨10, 1000, 510, "B", 1⟩ (by simp)

/-- C5 counterexample: part_002's fallback is not nearest-to-0.5 — with
titled sections at tops 0 and 150 (height 100) and viewport center 135 no
section is a strict candidate, index 1 is strictly nearer to progress 0.5
(0.65 against 0.75), yet part_002's selection keeps the FIRST in-band
section, index 0. -/
theorem claim_C5_counterexample :
    Part002.selectActive 135 [⟨0, 100, some "A"⟩, ⟨150, 100, some "B"⟩] =
      some (0, ⟨0, 100, some "A"⟩) ∧
    ¬ Info.strictCand 135 ⟨0, 100, "A"⟩ ∧
    ¬ Info.strictCand 135 ⟨150, 100, "B"⟩ ∧
    Info.dist05 135 ⟨150, 100, "B"⟩ < Info.dist05 135 ⟨0, 100, "A"⟩ := by
  refine ⟨?_, ?_, ?_, ?_⟩
  · norm_num [Part002.selectActive, Part002.selectLoop, Part002.progress, Info.orEmpty]
    decide
  · norm_num [Info.strictCand, Info.clampedProgress, Info.clamp,
      Info.PROGRESS_CLAMP_MIN, Info.PROGRESS_CLAMP_MAX, min_def, max_def]
  · norm_num [Info.strictCand, Info.clampedProgress, Info.clamp,
      Info.PROGRESS_CLAMP_MIN, Info.PROGRESS_CLAMP_MAX, min_def, max_def]
  · norm_num [Info.dist05, Info.clampedProgress, Info.clamp,
      Info.PROGRESS_CLAMP_MIN, Info.PROGRESS_CLAMP_MAX, min_def, max_def, abs]

/-- C5 (amended): in src/info.js's `update`, when no section is a strict
candidate, the selection returns the section whose clamped progress is
numerically closest to 0.5 among all sections (earliest index on ties); in
particular, for three equal-height sections at tops 0, 100, 200 and viewport
center -50, index 0 is selected (not "no selection").  part_002's variant
does not implement this fallback: it keeps the first titled section with raw
progress in [-0.5, 1.5] regardless of which section is nearest. -/
theorem claim_C5_nearest_fallback :
    (∀ (c : ℚ) (a : Info.CacheEntry) (rest : List Info.CacheEntry) (k : ℕ)
        (e : Info.CacheEntry),
      (∀ x ∈ a :: rest, ¬ Info.strictCand c x) →
      Info.selectActive c (a :: rest) = some (k, e) →
      ∀ x ∈ a :: rest, Info.dist05 c e ≤ Info.dist05 c x) ∧
    Info.selectActive (-50) [⟨0, 100, "A"⟩, ⟨100, 100, "B"⟩, ⟨200, 100, "C"⟩] =
      some (0, ⟨0, 100, "A"⟩) := by
  constructor
  · intro c a rest k e h hsel
    obtain ⟨k', e', hsel', hall⟩ := Info.selectActive_min c a rest h
    rw [hsel] at hsel'
    have heq : k = k' ∧ e = e' := by
      simpa [eq_comm] using hsel'
    rw [heq.2]
    exact hall
  · norm_num [Info.selectActive, Info.selectGo, Info.strictCand, Info.clampedProgress,
      Info.clamp, Info.dist05, Info.distLtBest, Info.PROGRESS_CLAMP_MIN,
      Info.PROGRESS_CLAMP_MAX, min_def, max_def, abs]

/-- C5 witness: the fallback minimality applied at the concrete
three-section cache with viewport center -50. -/
theorem claim_C5_witness :
    Info.dist05 (-50) ⟨0, 100, "A"⟩ ≤ Info.dist05 (-50) ⟨200, 100, "C"⟩ ∧
    Info.selectActive (-50) [⟨0, 100, "A"⟩, ⟨100, 100, "B"⟩, ⟨200, 100, "C"⟩] =
      some (0, ⟨0, 100, "A"⟩) :=
  ⟨claim_C5_nearest_fallback.1 (-50) ⟨0, 100, "A"⟩ [⟨100, 100, "B"⟩, ⟨200, 100, "C"⟩]
      0 ⟨0, 100, "A"⟩
      (by
        intro x hx
        fin_cases hx <;>
          norm_num [Info.strictCand, Info.clampedProgress, Info.clamp,
            Info.PROGRESS_CLAMP_MIN, Info.PROGRESS_CLAMP_MAX, min_def, max_def])
      claim_C5_nearest_fallback.2
      ⟨200, 100, "C"⟩ (by simp),
   claim_C5_nearest_fallback.2⟩

/-- C6: if the structurally selected section's title is the empty string,
`update` hides the label (visibility removed, transform reset) even though
the selection step chose that section. -/
theorem claim_C6_empty_title_hidden (innerHeight scrollY : ℚ)
    (cache : List Info.CacheEntry) (i : ℕ) (e : Info.CacheEntry)
    (hsel : Info.selectActive (scrollY + innerHeight / 2) cache = some (i, e))
    (htitle : e.title = "") :
    Info.update innerHeight scrollY cache = Info.LabelOutput.hidden := by
  simp only [Info.update]
  rw [hsel]
  simp [htitle]

/-- C6 witness: a single section with an empty title is structurally
selected, and the evaluation hides the label. -/
theorem claim_C6_witness :
    Info.update 100 0 [⟨0, 100, ""⟩] = Info.LabelOutput.hidden :=
  claim_C6_empty_title_hidden 100 0 [⟨0, 100, ""⟩] 0 ⟨0, 100, ""⟩
    (by norm_num [Info.selectActive, Info.selectGo, Info.strictCand, Info.clampedProgress,
      Info.clamp, Info.PROGRESS_CLAMP_MIN, Info.PROGRESS_CLAMP_MAX, min_def, max_def])
    rfl

/-- C7 counterexample: part_002's progress divides by the raw
`sec.offsetHeight` — there is no geometry snapshot and no `Math.max(1, ...)`
guard — so a zero-height section divides by zero there (JS yields
Infinity; in the exact rational embedding the unguarded quotient collapses
to 0), which differs from the value the claimed height-1 snapshot gives. -/
theorem claim_C7_counterexample :
    (⟨10, 0, some "A"⟩ : Part002.SectionInput).offsetHeight = 0 ∧
    Part002.progress 20 ⟨10, 0, some "A"⟩ = (20 - 10) / (0:ℚ) ∧
    Part002.progress 20 ⟨10, 0, some "A"⟩ ≠
      (20 - 10) / (Info.rebuildCacheEntry 0 10 0 (some "A")).height := by
  refine ⟨rfl, rfl, ?_⟩
  norm_num [Part002.progress, Info.rebuildCacheEntry, Info.orEmpty, max_def]

/-- C7 (amended): in src/info.js and part_000, `rebuildCache` snapshots a
section measured with height ≤ 0 as height = 1, and every cache entry has
strictly positive (hence non-zero) height, so the progress division
(viewportCenter - top) / height never divides by zero there.  part_002's
`update` instead divides by the raw live `offsetHeight` with no guard. -/
theorem claim_C7_degenerate_height (scrollY t h : ℚ) (attr : Option String)
    (secs : List Info.SectionInput) :
    (h ≤ 0 → (Info.rebuildCacheEntry scrollY t h attr).height = 1) ∧
    (∀ ent ∈ Info.rebuildCache scrollY secs, 0 < ent.height ∧ ent.height ≠ 0) := by
  constructor
  · intro hh
    simp only [Info.rebuildCacheEntry]
    exact max_eq_left (by linarith)
  · intro ent hent
    simp only [Info.rebuildCache, List.mem_map] at hent
    obtain ⟨s, -, rfl⟩ := hent
    have h1 : (1:ℚ) ≤ max 1 s.rectHeight := le_max_left _ _
    constructor
    · simp only [Info.rebuildCacheEntry]
      linarith
    · simp only [Info.rebuildCacheEntry]
      exact ne_of_gt (by linarith)

/-- C7 witness: a section measured with height -5 gets cached height 1,
which is positive and non-zero. -/
theorem claim_C7_witness :
    (Info.rebuildCacheEntry 0 0 (-5) none).height = 1 ∧
    (0 < (Info.rebuildCacheEntry 0 0 (-5) none).height ∧
      (Info.rebuildCacheEntry 0 0 (-5) none).height ≠ 0) :=
  ⟨(claim_C7_degenerate_height 0 0 (-5) none []).1 (by norm_num),
   (claim_C7_degenerate_height 0 0 (-5) none [⟨0, -5, none⟩]).2
     (Info.rebuildCacheEntry 0 0 (-5) none)
     (by simp [Info.rebuildCache])⟩

/-- C8: the claim fails on part_003 — its `startPx`/`endPx` are module-level
constants captured from the viewport height at script load, and `onResize`
does not recompute them, so the evaluation after a resize from height 100 to
height 200 still maps p = 0 to 35 px instead of the 70 px demanded by the
current viewport height; part_000's `holdMapProgressToPx`, by contrast,
recomputes the pixel offsets from the current viewport height on each call. -/
theorem claim_C8_stale_px_after_resize :
    Part003.mapProgressToPx
      (Part003.onResize (Part003.initState 100 0 [⟨0, 50, 100, "A"⟩]) 200 0
        [⟨0, 50, 100, "A"⟩]) 0 = 35 ∧
    Part003.vhToPx 200 Part003.START_OFFSET_VH = 70 ∧
    Part003.mapProgressToPx
      (Part003.onResize (Part003.initState 100 0 [⟨0, 50, 100, "A"⟩]) 200 0
        [⟨0, 50, 100, "A"⟩]) 0 ≠
      Part003.vhToPx 200 Part003.START_OFFSET_VH ∧
    Part000.holdMapProgressToPx 200 0 = Part000.vhToPx 200 Part000.START_OFFSET_VH := by
  refine ⟨?_, ?_, ?_, ?_⟩ <;>
    norm_num [Part003.mapProgressToPx, Part003.onResize, Part003.initState, Part003.vhToPx,
      Part003.START_OFFSET_VH, Part003.END_OFFSET_VH,
      Part000.holdMapProgressToPx, Part000.holdMapCore, Part000.vhToPx,
      Part000.START_OFFSET_VH, Part000.ENTRY_START]

namespace Throttle

theorem onScroll_fixed : ∀ m : ℕ, onScroll^[m] ⟨true, 1, 0⟩ = ⟨true, 1, 0⟩ := by
  intro m
  induction m with
  | zero => rfl
  | succ m ih =>
    rw [Function.iterate_succ_apply, show onScroll ⟨true, 1, 0⟩ = ⟨true, 1, 0⟩ from rfl, ih]

end Throttle

/-- C9: a burst of n ≥ 1 scroll signals before the next frame schedules
exactly one rAF callback (the first signal sets the ticking flag, the rest
schedule nothing), and the frame then runs exactly one evaluation and clears
the flag. -/
theorem claim_C9_frame_coalescing (n : ℕ) (hn : 1 ≤ n) :
    Throttle.onScroll^[n] Throttle.idle = ⟨true, 1, 0⟩ ∧
    Throttle.runFrame (Throttle.onScroll^[n] Throttle.idle) = ⟨false, 0, 1⟩ := by
  obtain ⟨m, rfl⟩ : ∃ m, n = m + 1 := ⟨n - 1, by omega⟩
  have h1 : Throttle.onScroll^[m + 1] Throttle.idle = ⟨true, 1, 0⟩ := by
    rw [Function.iterate_succ_apply,
      show Throttle.onScroll Throttle.idle = ⟨true, 1, 0⟩ from rfl]
    exact Throttle.onScroll_fixed m
  exact ⟨h1, by rw [h1]; rfl⟩

/-- C9 witness: the spec's ten-signal burst produces exactly one evaluation. -/
theorem claim_C9_witness :
    Throttle.onScroll^[10] Throttle.idle = ⟨true, 1, 0⟩ ∧
    Throttle.runFrame (Throttle.onScroll^[10] Throttle.idle) = ⟨false, 0, 1⟩ :=
  claim_C9_frame_coalescing 10 (by norm_num)

namespace Part003

theorem computeWindow_start_lt_endW (scrollY innerHeight : ℚ) (g : SectionGeom)
    (hg : 0 ≤ g.offsetHeight) :
    (computeWindow scrollY innerHeight g).start < (computeWindow scrollY innerHeight g).endW := by
  simp only [computeWindow]
  have hm : 0 ≤ EXTRA_MARGIN * g.offsetHeight :=
    mul_nonneg (by norm_num [EXTRA_MARGIN]) hg
  split_ifs with hcase
  · linarith
  · have h100 : (100:ℚ) ≤ max 100 (g.offsetHeight * (1/2)) := le_max_left _ _
    linarith

end Part003

/-- C10: every active window produced by part_003's `computeWindows` has its
end strictly above its start (degenerate or inverted paragraph spans are
widened to a minimal positive window), and `computeP` guards a non-positive
denominator and clamps, so every progress value it produces lies in [0, 1]
(the computation is exact rational arithmetic — total, no undefined values). -/
theorem claim_C10_window_invariant :
    (∀ (scrollY innerHeight : ℚ) (secs : List Part003.SectionGeom),
      (∀ g ∈ secs, 0 ≤ g.offsetHeight) →
      ∀ w ∈ Part003.computeWindows scrollY innerHeight secs, w.start < w.endW) ∧
    (∀ (c : ℚ) (w : Part003.Window), 0 ≤ Part003.computeP c w ∧ Part003.computeP c w ≤ 1) := by
  constructor
  · intro sy ih secs hsecs w hw
    simp only [Part003.computeWindows, List.mem_map] at hw
    obtain ⟨g, hg, rfl⟩ := hw
    exact Part003.computeWindow_start_lt_endW sy ih g (hsecs g hg)
  · intro c w
    simp only [Part003.computeP]
    split_ifs with hden
    · norm_num
    · simp only [Info.clamp]
      exact ⟨le_max_left _ _, max_le (by norm_num) (min_le_left _ _)⟩

/-- C10 witness: the invariant applied to a concrete section geometry and a
concrete window. -/
theorem claim_C10_witness :
    (Part003.computeWindow 0 100 ⟨0, 50, 40, "A"⟩).start <
      (Part003.computeWindow 0 100 ⟨0, 50, 40, "A"⟩).endW ∧
    (0 ≤ Part003.computeP 5 ⟨0, 10, "B"⟩ ∧ Part003.computeP 5 ⟨0, 10, "B"⟩ ≤ 1) :=
  ⟨claim_C10_window_invariant.1 0 100 [⟨0, 50, 40, "A"⟩] (by norm_num)
      (Part003.computeWindow 0 100 ⟨0, 50, 40, "A"⟩) (by simp [Part003.computeWindows]),
   claim_C10_window_invariant.2 5 ⟨0, 10, "B"⟩⟩
